import Mathlib

/-!
Shallow embedding of the `vaults-mcp` repository (Python) in Lean 4, covering
the resilient HTTP client (`src/client.py`), its configuration
(`src/config.py`), the error hierarchy (`src/exceptions.py`) and the tool
dispatch boundary (`src/server.py`).

Modelling conventions:
* Python values that flow through JSON parsing are modelled by the `Json`
  inductive; a Python `str` is `Json.str`.
* `response.json()` (which may raise) is modelled as a field
  `json : Except String Json` of the observed response, where `.error m`
  means the parse raised an exception whose text is `m`.
* One transport interaction per attempt is injected through a
  `TransportEvent`; retries index the injected events by 1-based attempt
  number.
* The `tenacity` retry decorator on `_make_request`
  (`stop_after_attempt(5)`, `wait_exponential(multiplier=1, min=1, max=10)`,
  `retry_if_exception_type((NetworkError, ServerError, TimeoutError))`)
  is modelled by `tenacityLoop`; since `reraise` is left at its default
  `False`, exhausting the stop condition raises `tenacity.RetryError`
  wrapping the last attempt, modelled by `RequestOutcome.retryExhausted`.
-/

namespace Vaults

/-- A parsed JSON value, the universal value type for data crossing the
client boundary (result of `response.json()` and message/details payloads
stored in exceptions). -/
inductive Json where
  | str (s : String)
  | num (n : Int)
  | bool (b : Bool)
  | null
  | arr (items : List Json)
  | obj (fields : List (String × Json))

/-- Python `str()` of a parsed JSON value, used where the source
interpolates an exception into an f-string. Only the `str` case is
exercised by the claims; the remaining cases give the Python renderings of
the corresponding values (compound values are rendered shallowly). -/
def pyStr : Json → String
  | .str s => s
  | .num n => toString n
  | .bool true => "True"
  | .bool false => "False"
  | .null => "None"
  | .arr _ => "[\x2e\x2e\x2e]"
  | .obj _ => "\x7b\x2e\x2e\x2e\x7d"

/-- First value bound to a key in a JSON object (Python `dict` lookup,
`dict.get` semantics: `none` exactly when the key is absent). -/
def jsonLookup (fields : List (String × Json)) (k : String) : Option Json :=
  (fields.find? (fun p => p.fst = k)).map Prod.snd

/-- Substring test, modelling Python `needle in hay`. -/
def strContains (hay needle : String) : Bool :=
  hay.toList.tails.any (fun t => needle.toList.isPrefixOf t)

/-- ASCII lowercasing (Python `str.lower()`, httpx header normalisation),
written over the character list so that it reduces definitionally. -/
def strLower (s : String) : String :=
  String.mk (s.toList.map Char.toLower)

/-- An HTTP response as the client observes it.  `content` is the decoded
body text (`response.text` / emptiness of `response.content`); `json` is
the outcome of `response.json()`, with `.error m` modelling a parse
exception with text `m`. -/
structure HttpResponse where
  status_code : Nat
  headers : List (String × String)
  content : String
  json : Except String Json

/-- Model of `response.headers.get(name, deflt)`: httpx header lookup is
case-insensitive. -/
def headerGet (r : HttpResponse) (name deflt : String) : String :=
  match r.headers.find? (fun p => strLower p.fst = strLower name) with
  | some p => p.snd
  | none => deflt

/-- Model of `response.headers.get(name)`, returning `None` when absent. -/
def headerGetOpt (r : HttpResponse) (name : String) : Option String :=
  (r.headers.find? (fun p => strLower p.fst = strLower name)).map Prod.snd

/-- Model of `response.is_success` (httpx): status code in the 2xx range. -/
def isSuccess (status : Nat) : Bool :=
  decide (200 ≤ status ∧ status < 300)

/-- The exception hierarchy of `src/exceptions.py` restricted to the six
kinds the client can raise.  Each carries the constructor arguments of the
corresponding Python class (`message`, optional `details`, plus
`status_code` for `APIError` and `retry_after` for `RateLimitError`).
`TimeoutError` and `NetworkError` inherit the optional `details` from
`VaultsException`; the client always leaves it `None`. -/
inductive VErr where
  | authenticationError (message : Json) (details : Option Json)
  | apiError (message : Json) (status_code : Option Nat) (details : Option Json)
  | rateLimitError (message : Json) (retry_after : Option Int) (details : Option Json)
  | serverError (message : Json) (details : Option Json)
  | timeoutError (message : Json) (details : Option Json)
  | networkError (message : Json) (details : Option Json)

/-- The `message` attribute stored by `VaultsException.__init__`. -/
def VErr.message : VErr → Json
  | .authenticationError m _ => m
  | .apiError m _ _ => m
  | .rateLimitError m _ _ => m
  | .serverError m _ => m
  | .timeoutError m _ => m
  | .networkError m _ => m

/-- The `details` attribute stored by `VaultsException.__init__`. -/
def VErr.details : VErr → Option Json
  | .authenticationError _ d => d
  | .apiError _ _ d => d
  | .rateLimitError _ _ d => d
  | .serverError _ d => d
  | .timeoutError _ d => d
  | .networkError _ d => d

/-- An exception raised by code inside the client: either one of the
classified `VaultsException` kinds, or some other Python exception (for
example the `ValueError` that `int()` raises on a malformed `Retry-After`
header), carried as its `str()` text. -/
inductive RaisedError where
  | vaults (e : VErr)
  | pyError (msg : String)

/-- Python `str(e)`.  For a `VaultsException`, `Exception.__init__` was
called with the single argument `message`, so `str(e)` is `str(message)`. -/
def strOfRaised : RaisedError → String
  | .vaults e => pyStr e.message
  | .pyError m => m

/-- The message carried by a raised exception, as a JSON value. -/
def raisedMessage : RaisedError → Json
  | .vaults e => e.message
  | .pyError m => .str m

/-- Accumulate a decimal digit string (empty input is not a number). -/
def parseDigits : List Char → Option Nat
  | [] => none
  | cs => cs.foldl
      (fun acc c =>
        match acc with
        | none => none
        | some n => if c.isDigit then some (n * 10 + (c.toNat - 48)) else none)
      (some 0)

/-- Python `int(s)` on a header string, `none` when it raises.  (The full
`int()` grammar also strips surrounding whitespace and allows underscore
group separators; the `Retry-After` values in scope are plain optionally
signed digit strings.) -/
def pyInt? (s : String) : Option Int :=
  match s.toList with
  | [] => none
  | c :: cs =>
    if c = Char.ofNat 45 then (parseDigits cs).map (fun n => -(n : Int))
    else if c = Char.ofNat 43 then (parseDigits cs).map (fun n => (n : Int))
    else (parseDigits (c :: cs)).map (fun n => (n : Int))

/-- The `try`/`except` prelude of `VaultsClient._handle_response_error`
(client.py lines 62-76) computing `(error_message, error_details)`.  Note
the order: `response.json()` is attempted first, and only when it fails
(the body does not parse, or parses to a non-dict so that `.get` raises)
is the content-type inspected for the HTML marker. -/
def response_error_payload (r : HttpResponse) : Json × Option Json :=
  let status_code := r.status_code
  let content_type := strLower (headerGet r "content-type" "")
  match r.json with
  | .ok (.obj fields) =>
      ((jsonLookup fields "error").getD (.str s!"HTTP {status_code}"),
       jsonLookup fields "details")
  | _ =>
      if strContains content_type "text/html" then
        (.str s!"Received HTML error page instead of JSON (HTTP {status_code})",
         some (.str "The server returned an HTML error page, likely due to an unhandled exception"))
      else
        (.str (s!"HTTP {status_code}: " ++ String.mk (r.content.toList.take 200) ++ "\x2e\x2e\x2e"),
         none)

/-- Model of `VaultsClient._handle_response_error` (client.py lines 60-92).  The
function always raises; its result is the exception raised — one of the
classified kinds, or (when `int()` rejects a non-empty `Retry-After`
header on a 429) the `ValueError` that escapes instead. -/
def handle_response_error (r : HttpResponse) : RaisedError :=
  let status_code := r.status_code
  let error_message := (response_error_payload r).fst
  let error_details := (response_error_payload r).snd
  if status_code = 401 then
    .vaults (.authenticationError error_message error_details)
  else if status_code = 429 then
    match headerGetOpt r "Retry-After" with
    | none => .vaults (.rateLimitError error_message none error_details)
    | some ra =>
        if ra = "" then
          .vaults (.rateLimitError error_message none error_details)
        else
          match pyInt? ra with
          | some n => .vaults (.rateLimitError error_message (some n) error_details)
          | none => .pyError s!"invalid literal for int with base 10: {ra}"
  else if 400 ≤ status_code ∧ status_code < 500 then
    .vaults (.apiError error_message (some status_code) error_details)
  else if 500 ≤ status_code ∧ status_code < 600 then
    .vaults (.serverError error_message error_details)
  else
    .vaults (.apiError error_message (some status_code) error_details)

/-- One transport interaction, as injected into a single attempt of
`_make_request`: `await self.client.request(...)` either raises
`httpx.TimeoutException`, raises `httpx.NetworkError`, or returns a
response.  (`httpx.HTTPStatusError` is only ever raised by
`raise_for_status`, which the client never calls, so that handler in the
source is dead code and has no corresponding event.) -/
inductive TransportEvent where
  | timeoutExc (msg : String)
  | networkExc (msg : String)
  | response (r : HttpResponse)

/-- The body of the `try:` block of `_make_request` (client.py lines
112-147) applied to a returned response: either the parsed JSON result or
the exception the block raises. -/
def makeRequestBody (r : HttpResponse) : Except RaisedError Json :=
  if ¬ isSuccess r.status_code then
    .error (handle_response_error r)
  else if r.content = "" then
    .ok (.obj [])
  else
    let content_type := strLower (headerGet r "content-type" "")
    if strContains content_type "text/html" then
      .error (.vaults (.serverError
        (.str s!"Received HTML response instead of JSON (HTTP {r.status_code})")
        (some (.str "The server returned an HTML error page, likely due to an unhandled exception"))))
    else
      match r.json with
      | .ok j => .ok j
      | .error em => .error (.vaults (.apiError
          (.str s!"Failed to parse JSON response (HTTP {r.status_code}): {em}") none none))

/-- One attempt of `_make_request`: the `try`/`except` chain (client.py
lines 112-160).  Transport exceptions are caught by the dedicated
`httpx.TimeoutException` and `httpx.NetworkError` handlers; every other
exception raised inside the `try:` block — including every
`VaultsException` raised by `_handle_response_error`, by the HTML
content-type check and by the JSON-parse failure branch — falls through to
the final `except Exception` handler, which re-raises it as
`APIError(f"Unexpected error: \x7be\x7d")`. -/
def make_request_attempt (timeout : Nat) (ev : TransportEvent) : Except VErr Json :=
  match ev with
  | .timeoutExc _ => .error (.timeoutError (.str s!"Request timed out after {timeout}s") none)
  | .networkExc m => .error (.networkError (.str s!"Network error: {m}") none)
  | .response r =>
      match makeRequestBody r with
      | .ok v => .ok v
      | .error e => .error (.apiError (.str ("Unexpected error: " ++ strOfRaised e)) none none)

/-- Model of
`retry_if_exception_type((NetworkError, ServerError, TimeoutError))`:
which classified errors the tenacity decorator retries. -/
def retriedByPolicy : VErr → Bool
  | .networkError _ _ => true
  | .serverError _ _ => true
  | .timeoutError _ _ => true
  | _ => false

/-- tenacity `wait_exponential(multiplier, min=mn, max=mx)` evaluated after
the attempt numbered `attempt_number`: `multiplier * 2^(attempt_number-1)`
clamped into `[mn, mx]`. -/
def wait_exponential (multiplier mn mx attempt_number : Nat) : Nat :=
  Nat.max mn (Nat.min (multiplier * 2 ^ (attempt_number - 1)) mx)

/-- What a call of `_make_request` delivers to its caller: a parsed JSON
value, a classified error raised directly, or — when the stop condition
ends a run of retryable failures — a `tenacity.RetryError` wrapping the
last attempt (the decorator leaves `reraise` at its default `False`). -/
inductive RequestOutcome where
  | ok (v : Json)
  | raised (e : VErr)
  | retryExhausted (last : VErr)

/-- A full run of `_make_request`: the delivered outcome, the number of
attempts performed, and the sleeps (in time units) performed between
attempts, in order. -/
structure RunResult where
  outcome : RequestOutcome
  attempts : Nat
  delays : List Nat

/-- The tenacity retry loop around `_make_request`.  `attempt_number` is
1-based; `retriesLeft` is how many further attempts `stop_after_attempt`
still allows after the current one.  A retryable failure with no retries
left raises `RetryError`; otherwise the loop sleeps
`wait_exponential(1, min=1, max=10)` and re-attempts. -/
def tenacityLoop (timeout : Nat) (events : Nat → TransportEvent) :
    (attempt_number retriesLeft : Nat) → RunResult
  | attempt_number, 0 =>
    match make_request_attempt timeout (events attempt_number) with
    | .ok v => ⟨.ok v, 1, []⟩
    | .error e =>
      if retriedByPolicy e then ⟨.retryExhausted e, 1, []⟩
      else ⟨.raised e, 1, []⟩
  | attempt_number, n + 1 =>
    match make_request_attempt timeout (events attempt_number) with
    | .ok v => ⟨.ok v, 1, []⟩
    | .error e =>
      if retriedByPolicy e then
        let w := wait_exponential 1 1 10 attempt_number
        let rest := tenacityLoop timeout events (attempt_number + 1) n
        ⟨rest.outcome, rest.attempts + 1, w :: rest.delays⟩
      else ⟨.raised e, 1, []⟩

/-- Model of `VaultsClient._make_request` under its retry decorator:
`stop_after_attempt(5)` allows 4 retries after the first attempt. -/
def make_request (timeout : Nat) (events : Nat → TransportEvent) : RunResult :=
  tenacityLoop timeout events 1 4

/-- Model of `Config` (config.py).  `retry_delay` is a Python float with default
`1.0`, modelled as a rational; the validators constrain the field values
at construction and are not needed by the claims. -/
structure Config where
  base_url : String := "https://your-function-app.azurewebsites.net"
  function_key : Option String := none
  timeout : Nat := 30
  max_retries : Nat := 5
  retry_delay : Rat := 1
  log_level : String := "INFO"
  server_name : String := "vaults-mcp"
  server_version : String := "1.0.0"

/-- Model of `VaultsClient._get_default_headers`, installed on the shared
`httpx.AsyncClient` at construction. -/
def get_default_headers (server_version : String) : List (String × String) :=
  [("Content-Type", "application/json"),
   ("User-Agent", "Vaults-MCP-Server/" ++ server_version),
   ("Accept", "application/json")]

/-- Model of `VaultsClient._get_auth_headers`: the `x-functions-key` header is added
only when `self.function_key` is truthy (a `None` or empty-string key adds
nothing). -/
def get_auth_headers (function_key : Option String) : List (String × String) :=
  match function_key with
  | some k => if k = "" then [] else [("x-functions-key", k)]
  | none => []

/-- The per-request headers chosen at client.py line 110:
`self._get_auth_headers() if requires_auth else \x7b\x7d`. -/
def request_headers (function_key : Option String) (requires_auth : Bool) :
    List (String × String) :=
  if requires_auth then get_auth_headers function_key else []

/-- httpx merges the client-level default headers with the per-request
headers, the per-request value winning on a (case-insensitive) name
clash. -/
def mergeHeaders (base extra : List (String × String)) : List (String × String) :=
  base.filter (fun p => ¬ extra.any (fun q => strLower q.fst = strLower p.fst)) ++ extra

/-- The headers on the outbound HTTP request for one `_make_request`
call. -/
def outbound_headers (cfg : Config) (requires_auth : Bool) :
    List (String × String) :=
  mergeHeaders (get_default_headers cfg.server_version)
    (request_headers cfg.function_key requires_auth)

/-- Case-insensitive lookup of a header on an outbound request. -/
def headerLookup (hs : List (String × String)) (name : String) : Option String :=
  (hs.find? (fun p => strLower p.fst = strLower name)).map Prod.snd

/-- One public `request()` call of the client (`get`/`post`/`put`/`delete`
all delegate to `_make_request`): the outbound headers it builds and the
retried run it performs.  Of the configuration, only `timeout`,
`function_key` and `server_version` are consulted; the retry decorator
uses the literals 5, 1 and 10. -/
structure RequestTrace where
  headers : List (String × String)
  run : RunResult

def client_request (cfg : Config) (requires_auth : Bool)
    (events : Nat → TransportEvent) : RequestTrace :=
  ⟨outbound_headers cfg requires_auth, make_request cfg.timeout events⟩

/-! ### Tool dispatch boundary (server.py) -/

/-- Model of `mcp.types.TextContent` as constructed by the server:
`TextContent(type="text", text=...)`. -/
structure TextContent where
  type : String
  text : String

/-- The tool names advertised by `handle_list_tools` through the static
`TOOLS` catalog (server.py lines 54-1035), in catalog order. -/
def toolNames : List String :=
  ["health_check", "get_service_bus_health", "get_queue_metrics",
   "health_check_live", "health_check_ready", "health_check_simple",
   "health_check_config", "health_check_service",
   "get_admin_stats", "get_audit_policies", "list_tenant_users",
   "update_audit_policies", "delete_audit_policy", "get_user_invitation_status",
   "get_copilot_root", "get_copilot_users", "get_interaction_history",
   "copilot_retrieve_content", "get_copilot_usage_summary", "get_copilot_user_count",
   "get_security_alerts", "get_high_risk_users", "get_policy_violations",
   "get_conversation", "search_conversations", "process_ingestion",
   "get_usage_metrics", "get_tenant_overview", "list_exports",
   "get_billing_status", "create_stripe_checkout", "create_stripe_payment_link",
   "get_seat_status", "stripe_webhook",
   "validate_azure_ad_permissions", "test_storage_connection",
   "complete_onboarding", "send_onboarding_email", "invite_user",
   "resend_invitation",
   "get_purview_audit_logs", "subscribe_purview_audit_logs", "get_dlp_policies",
   "assess_dlp_violation_risk", "validate_ai_permissions",
   "validate_ai_permissions_batch", "get_user_permission_summary",
   "classify_content", "classify_content_batch",
   "get_content_classification_summary", "apply_sensitivity_labels"]

/-- The `if`/`elif` chain of `handle_call_tool` (server.py lines
1050-1218): `true` exactly when the invocation name selects a handler,
`false` when control reaches the `else` branch raising
`ValueError(f"Unknown tool: \x7bname\x7d")`. -/
def handle_call_tool_known (name : String) : Bool :=
  if name = "health_check" then true
  else if name = "get_service_bus_health" then true
  else if name = "get_queue_metrics" then true
  else if name = "health_check_live" then true
  else if name = "health_check_ready" then true
  else if name = "health_check_simple" then true
  else if name = "health_check_config" then true
  else if name = "health_check_service" then true
  else if name = "get_admin_stats" then true
  else if name = "get_audit_policies" then true
  else if name = "list_tenant_users" then true
  else if name = "update_audit_policies" then true
  else if name = "delete_audit_policy" then true
  else if name = "get_user_invitation_status" then true
  else if name = "get_copilot_root" then true
  else if name = "get_copilot_users" then true
  else if name = "get_interaction_history" then true
  else if name = "copilot_retrieve_content" then true
  else if name = "get_copilot_usage_summary" then true
  else if name = "get_copilot_user_count" then true
  else if name = "get_security_alerts" then true
  else if name = "get_high_risk_users" then true
  else if name = "get_policy_violations" then true
  else if name = "get_conversation" then true
  else if name = "search_conversations" then true
  else if name = "process_ingestion" then true
  else if name = "get_usage_metrics" then true
  else if name = "get_tenant_overview" then true
  else if name = "list_exports" then true
  else if name = "get_billing_status" then true
  else if name = "create_stripe_checkout" then true
  else if name = "create_stripe_payment_link" then true
  else if name = "get_seat_status" then true
  else if name = "stripe_webhook" then true
  else if name = "validate_azure_ad_permissions" then true
  else if name = "test_storage_connection" then true
  else if name = "complete_onboarding" then true
  else if name = "send_onboarding_email" then true
  else if name = "invite_user" then true
  else if name = "resend_invitation" then true
  else if name = "get_purview_audit_logs" then true
  else if name = "subscribe_purview_audit_logs" then true
  else if name = "get_dlp_policies" then true
  else if name = "assess_dlp_violation_risk" then true
  else if name = "validate_ai_permissions" then true
  else if name = "validate_ai_permissions_batch" then true
  else if name = "get_user_permission_summary" then true
  else if name = "classify_content" then true
  else if name = "classify_content_batch" then true
  else if name = "get_content_classification_summary" then true
  else if name = "apply_sensitivity_labels" then true
  else false

/-- Model of `handle_call_tool` (server.py lines 1043-1227).  The selected handler
is abstracted as an oracle `run`: `run name` is either the
`List[TextContent]` the handler returns or, when the handler raises, the
`str()` of the exception.  The whole dispatch sits in a `try:` whose
`except Exception` converts any raised exception `e` — including the
`ValueError` of the unknown-name branch — into
`[TextContent(type="text", text=f"Error: \x7bstr(e)\x7d")]`. -/
def handle_call_tool (run : String → Except String (List TextContent))
    (name : String) : List TextContent :=
  let tried : Except String (List TextContent) :=
    if handle_call_tool_known name then run name
    else .error ("Unknown tool: " ++ name)
  match tried with
  | .ok result => result
  | .error m => [⟨"text", "Error: " ++ m⟩]


/-! ### Concrete inputs used by the claim theorems -/

/-- A 500 response whose JSON error body carries the message `boom`,
returned on every attempt. -/
def response500 : HttpResponse :=
  { status_code := 500
  , headers := [("content-type", "application/json")]
  , content := "\x7b\x22error\x22: \x22boom\x22\x7d"
  , json := .ok (.obj [("error", .str "boom")]) }

/-- Transport behaviour: every attempt gets `response500`. -/
def events500 : Nat → TransportEvent := fun _ => .response response500

/-- Transport behaviour: every attempt raises `httpx.TimeoutException`. -/
def eventsTimeout : Nat → TransportEvent := fun _ => .timeoutExc "t"

/-- A 401 response whose JSON error body carries the message
`Unauthorized`. -/
def response401 : HttpResponse :=
  { status_code := 401
  , headers := [("content-type", "application/json")]
  , content := "\x7b\x22error\x22: \x22Unauthorized\x22\x7d"
  , json := .ok (.obj [("error", .str "Unauthorized")]) }

/-- A 429 response with header `Retry-After: 30` and a JSON error body
carrying the message `rate limited`. -/
def response429 : HttpResponse :=
  { status_code := 429
  , headers := [("content-type", "application/json"), ("Retry-After", "30")]
  , content := "\x7b\x22error\x22: \x22rate limited\x22\x7d"
  , json := .ok (.obj [("error", .str "rate limited")]) }

/-- A success (200) response whose content-type indicates HTML and whose
non-empty body is an HTML page (so `response.json()` raises). -/
def responseHtml200 : HttpResponse :=
  { status_code := 200
  , headers := [("content-type", "text/html; charset=utf-8")]
  , content := "<html>Internal error page</html>"
  , json := .error "Expecting value: line 1 column 1 (char 0)" }

/-- A 500 response whose content-type indicates HTML but whose body
nevertheless parses as a JSON object carrying the message `greetings`. -/
def responseHtmlJson500 : HttpResponse :=
  { status_code := 500
  , headers := [("content-type", "text/html")]
  , content := "\x7b\x22error\x22: \x22greetings\x22\x7d"
  , json := .ok (.obj [("error", .str "greetings")]) }

/-- A 500 response whose content-type indicates HTML and whose body is an
HTML page (so `response.json()` raises). -/
def responseHtml500 : HttpResponse :=
  { status_code := 500
  , headers := [("content-type", "text/html")]
  , content := "<html>boom</html>"
  , json := .error "Expecting value: line 1 column 1 (char 0)" }

/-- A configuration with a (non-empty) function key configured. -/
def cfgWithKey : Config := { function_key := some "test-key" }

/-- Whether a delivered outcome is a classified delivery (a parsed value
or one of the six classified error kinds raised directly), as opposed to
the retry-exhaustion wrapper. -/
def isClassifiedDelivery : RequestOutcome → Bool
  | .ok _ => true
  | .raised _ => true
  | .retryExhausted _ => false

/-! ### Helper lemmas -/

/-- Generic membership chain: the shape of the dispatch `elif` cascade
over an arbitrary name list. -/
def nameChain : List String → String → Bool
  | [], _ => false
  | x :: xs, name => if name = x then true else nameChain xs name

theorem nameChain_eq_mem (ns : List String) (name : String) :
    nameChain ns name = true ↔ name ∈ ns := by
  induction ns with
  | nil => simp [nameChain]
  | cons x xs ih => by_cases h : name = x <;> simp [nameChain, h, ih]

theorem known_eq_chain (name : String) :
    handle_call_tool_known name = nameChain toolNames name := rfl

theorem tenacityLoop_shape (timeout : Nat) (events : Nat → TransportEvent)
    (a n : Nat) :
    (∃ v, (tenacityLoop timeout events a n).outcome = .ok v) ∨
    (∃ e, (tenacityLoop timeout events a n).outcome = .raised e ∧
      retriedByPolicy e = false) ∨
    (∃ e, (tenacityLoop timeout events a n).outcome = .retryExhausted e ∧
      retriedByPolicy e = true) := by
  induction n generalizing a with
  | zero =>
    unfold tenacityLoop
    cases h : make_request_attempt timeout (events a) with
    | ok v => exact Or.inl ⟨v, rfl⟩
    | error e =>
      by_cases hr : retriedByPolicy e = true
      · exact Or.inr (Or.inr ⟨e, by simp [hr], hr⟩)
      · refine Or.inr (Or.inl ⟨e, ?_, by simpa using hr⟩)
        simp [Bool.not_eq_true] at hr
        simp [hr]
  | succ n ih =>
    unfold tenacityLoop
    cases h : make_request_attempt timeout (events a) with
    | ok v => exact Or.inl ⟨v, rfl⟩
    | error e =>
      by_cases hr : retriedByPolicy e = true
      · simpa [hr] using ih (a + 1)
      · refine Or.inr (Or.inl ⟨e, ?_, by simpa using hr⟩)
        simp [Bool.not_eq_true] at hr
        simp [hr]

theorem tenacityLoop_attempts_le (timeout : Nat) (events : Nat → TransportEvent)
    (a n : Nat) : (tenacityLoop timeout events a n).attempts ≤ n + 1 := by
  induction n generalizing a with
  | zero =>
    unfold tenacityLoop
    cases make_request_attempt timeout (events a) with
    | ok v => simp
    | error e => by_cases hr : retriedByPolicy e = true <;> simp [hr]
  | succ n ih =>
    unfold tenacityLoop
    cases make_request_attempt timeout (events a) with
    | ok v => simp
    | error e =>
      by_cases hr : retriedByPolicy e = true
      · simpa [hr, Nat.succ_le_succ_iff] using Nat.add_le_add_right (ih (a + 1)) 1
      · simp [hr]

/-! ### Claim theorems -/

/-- C1: the claim says a 500-599 response is attempted 5 times with
exponential backoff and the final classified (Server) error surfaced after
exhaustion.  Evaluating the code on a 500 response shows the opposite:
`_handle_response_error` does raise `ServerError("boom")` — the retryable
kind named by the retry decorator — but the blanket `except Exception` in
`_make_request` catches it and re-raises
`APIError("Unexpected error: boom")`, which is not retried, so exactly one
attempt is made and no backoff delay occurs. -/
theorem server_5xx_not_retried_eval :
    handle_response_error response500 = .vaults (.serverError (.str "boom") none) ∧
    make_request 30 events500 =
      ⟨.raised (.apiError (.str "Unexpected error: boom") none none), 1, []⟩ :=
  ⟨rfl, rfl⟩

/-- C2 counterexample: with a timeout injected on all attempts, the client
makes 5 attempts with delays 1, 2, 4, 8 and then delivers the
retry-exhaustion wrapper (`tenacity.RetryError` around the last classified
Timeout error) — not one of the six classified kinds, contradicting the
claim that every failure leaving the client is classified. -/
theorem timeout_exhaustion_not_classified :
    isClassifiedDelivery (make_request 30 eventsTimeout).outcome = false ∧
    make_request 30 eventsTimeout =
      ⟨.retryExhausted (.timeoutError (.str "Request timed out after 30s") none),
       5, [1, 2, 4, 8]⟩ :=
  ⟨rfl, rfl⟩

/-- C2 (amended): no raw transport-layer exception escapes — a transport
timeout or connectivity failure on an attempt is classified as Timeout or
Network respectively — and every delivery of `request()` is a parsed
value, a non-retryable classified error raised directly, or a
retry-exhaustion wrapper around the last classified retryable error. -/
theorem request_failures_classified_or_wrapped (timeout : Nat)
    (events : Nat → TransportEvent) (msg : String) :
    ((∃ v, (make_request timeout events).outcome = .ok v) ∨
     (∃ e, (make_request timeout events).outcome = .raised e ∧
       retriedByPolicy e = false) ∨
     (∃ e, (make_request timeout events).outcome = .retryExhausted e ∧
       retriedByPolicy e = true)) ∧
    make_request_attempt timeout (.timeoutExc msg) =
      .error (.timeoutError (.str s!"Request timed out after {timeout}s") none) ∧
    make_request_attempt timeout (.networkExc msg) =
      .error (.networkError (.str s!"Network error: {msg}") none) :=
  ⟨tenacityLoop_shape timeout events 1 4, rfl, rfl⟩

/-- C3: the claim says a 401 response makes exactly one attempt and is
classified as Authentication.  One attempt is indeed made, but the
surfaced failure is `APIError("Unexpected error: Unauthorized")`:
`_handle_response_error` raises `AuthenticationError`, which the blanket
`except Exception` in `_make_request` re-wraps. -/
theorem auth_401_eval :
    handle_response_error response401 =
      .vaults (.authenticationError (.str "Unauthorized") none) ∧
    make_request 30 (fun _ => .response response401) =
      ⟨.raised (.apiError (.str "Unexpected error: Unauthorized") none none), 1, []⟩ :=
  ⟨rfl, rfl⟩

/-- C4: the claim says a 429 response with `Retry-After: 30` makes one
attempt and the resulting error is RateLimit carrying retry-after = 30.
`_handle_response_error` does raise `RateLimitError` with
`retry_after = 30`, but the blanket `except Exception` re-wraps it as
`APIError("Unexpected error: rate limited")`, which carries no retry-after
field at all; one attempt is made. -/
theorem rate_limit_429_eval :
    handle_response_error response429 =
      .vaults (.rateLimitError (.str "rate limited") (some 30) none) ∧
    make_request 30 (fun _ => .response response429) =
      ⟨.raised (.apiError (.str "Unexpected error: rate limited") none none), 1, []⟩ :=
  ⟨rfl, rfl⟩

/-- C5: the claim says a 200 response with HTML content-type and non-empty
body raises a Server-classified error.  The code does raise rather than
return the body, but the `ServerError` constructed by the HTML check is
caught by the blanket `except Exception` and surfaced as
`APIError("Unexpected error: Received HTML response instead of JSON (HTTP 200)")`,
a Generic API classification, not Server. -/
theorem html_success_eval :
    make_request 30 (fun _ => .response responseHtml200) =
      ⟨.raised (.apiError
        (.str "Unexpected error: Received HTML response instead of JSON (HTTP 200)")
        none none), 1, []⟩ :=
  rfl

/-- C6: with `requiresAuth = false` the outbound request carries no
`x-functions-key` header even when a key is configured; with
`requiresAuth = true` and a configured (non-empty) key the outbound
request carries `x-functions-key` with exactly the configured value. -/
theorem auth_header_selection (cfg : Config) (events : Nat → TransportEvent)
    (k : String) (hk : cfg.function_key = some k) (hne : k ≠ "") :
    headerLookup (client_request cfg false events).headers "x-functions-key" = none ∧
    headerLookup (client_request cfg true events).headers "x-functions-key" = some k := by
  constructor
  · simp [client_request, outbound_headers, mergeHeaders, request_headers,
      get_default_headers, headerLookup, List.find?, strLower]
  · simp [client_request, outbound_headers, mergeHeaders, request_headers,
      get_auth_headers, get_default_headers, headerLookup, hk, hne,
      List.find?, List.filter, strLower]

/-- Witness for C6 at a concrete configuration with key `test-key`. -/
theorem auth_header_selection_witness :
    headerLookup (client_request cfgWithKey false (fun _ => .timeoutExc "t")).headers
      "x-functions-key" = none ∧
    headerLookup (client_request cfgWithKey true (fun _ => .timeoutExc "t")).headers
      "x-functions-key" = some "test-key" :=
  auth_header_selection cfgWithKey (fun _ => .timeoutExc "t") "test-key" rfl (by decide)

/-- C7 counterexample: a 500 response with HTML content-type whose body
happens to parse as the JSON object with message `greetings` is classified
with message `greetings`, not with the fixed unhandled-backend-exception
marker — because `_handle_response_error` attempts JSON parsing first and
only falls back to the HTML marker when parsing fails. -/
theorem html_error_message_counterexample :
    handle_response_error responseHtmlJson500 =
      .vaults (.serverError (.str "greetings") none) ∧
    raisedMessage (handle_response_error responseHtmlJson500) ≠
      .str "Received HTML error page instead of JSON (HTTP 500)" := by
  refine ⟨rfl, fun hx => ?_⟩
  have hx2 : Json.str "greetings" =
      .str "Received HTML error page instead of JSON (HTTP 500)" := hx
  injection hx2 with hs
  exact absurd hs (by decide)

/-- C7 (amended): for a failure response whose content-type indicates
HTML, JSON parsing of the body is attempted first; whenever the body does
not parse as a JSON object and a classified error is produced, that error
carries the fixed unhandled-backend-exception marker message and
details. -/
theorem html_error_marker_when_unparsed (r : HttpResponse) (e : VErr)
    (hct : strContains (strLower (headerGet r "content-type" "")) "text/html" = true)
    (hjson : ∀ fields, r.json ≠ Except.ok (Json.obj fields))
    (he : handle_response_error r = .vaults e) :
    e.message = .str s!"Received HTML error page instead of JSON (HTTP {r.status_code})" ∧
    e.details = some (.str "The server returned an HTML error page, likely due to an unhandled exception") := by
  have hmd : response_error_payload r =
      (.str s!"Received HTML error page instead of JSON (HTTP {r.status_code})",
       some (.str "The server returned an HTML error page, likely due to an unhandled exception")) := by
    unfold response_error_payload
    cases hj : r.json with
    | error m => simp [hct]
    | ok j =>
      cases j with
      | obj fields => exact absurd hj (hjson fields)
      | null => simp [hct]
      | bool b => simp [hct]
      | num n => simp [hct]
      | str s => simp [hct]
      | arr xs => simp [hct]
  simp only [handle_response_error, hmd] at he
  split_ifs at he
  · injection he with h; subst h; exact ⟨rfl, rfl⟩
  · rcases hra : headerGetOpt r "Retry-After" with _ | ra
    · rw [hra] at he; injection he with h; subst h; exact ⟨rfl, rfl⟩
    · rw [hra] at he
      by_cases hempty : ra = ""
      · simp only [hempty, if_pos rfl] at he
        injection he with h; subst h; exact ⟨rfl, rfl⟩
      · simp only [if_neg hempty] at he
        cases hpi : pyInt? ra with
        | some n => rw [hpi] at he; injection he with h; subst h; exact ⟨rfl, rfl⟩
        | none => rw [hpi] at he; simp at he
  · injection he with h; subst h; exact ⟨rfl, rfl⟩
  · injection he with h; subst h; exact ⟨rfl, rfl⟩
  · injection he with h; subst h; exact ⟨rfl, rfl⟩

/-- Witness for C7 (amended) at a 500 HTML response whose body fails to
parse as JSON. -/
theorem html_error_marker_when_unparsed_witness :
    (VErr.serverError
      (.str "Received HTML error page instead of JSON (HTTP 500)")
      (some (.str "The server returned an HTML error page, likely due to an unhandled exception"))).message
      = .str s!"Received HTML error page instead of JSON (HTTP {responseHtml500.status_code})" ∧
    (VErr.serverError
      (.str "Received HTML error page instead of JSON (HTTP 500)")
      (some (.str "The server returned an HTML error page, likely due to an unhandled exception"))).details
      = some (.str "The server returned an HTML error page, likely due to an unhandled exception") :=
  html_error_marker_when_unparsed responseHtml500 _ rfl
    (fun _ h => Except.noConfusion h) rfl

/-- C8: at the tool-dispatch boundary, when the selected handler raises,
the protocol sees a single text content beginning with the prefix
`Error: ` rather than a fault; an unknown tool name in particular yields
the text produced from `ValueError(f"Unknown tool: ...")` by the
boundary's catch-all. -/
theorem tool_dispatch_textual_errors
    (run : String → Except String (List TextContent)) (name m : String)
    (h : run name = .error m) :
    (handle_call_tool_known name = false →
      handle_call_tool run name = [⟨"text", "Error: " ++ ("Unknown tool: " ++ name)⟩]) ∧
    ∃ s, handle_call_tool run name = [⟨"text", "Error: " ++ s⟩] := by
  cases hk : handle_call_tool_known name with
  | false =>
    exact ⟨fun _ => (by simp [handle_call_tool, hk]),
      ⟨"Unknown tool: " ++ name, by simp [handle_call_tool, hk]⟩⟩
  | true =>
    exact ⟨fun hfalse => (nomatch hfalse),
      ⟨m, by simp [handle_call_tool, hk, h]⟩⟩

/-- Witness for C8 at the unknown tool name `nope` with a handler oracle
that always raises `boom`. -/
theorem tool_dispatch_textual_errors_witness :
    (handle_call_tool_known "nope" = false →
      handle_call_tool (fun _ => Except.error "boom") "nope" =
        [⟨"text", "Error: " ++ ("Unknown tool: " ++ "nope")⟩]) ∧
    ∃ s, handle_call_tool (fun _ => Except.error "boom") "nope" =
      [⟨"text", "Error: " ++ s⟩] :=
  tool_dispatch_textual_errors (fun _ => Except.error "boom") "nope" "boom" rfl

/-- C9: the whole observable behaviour of a `request()` call — outbound
headers, attempt count, backoff delays and delivered outcome — is
unchanged when `max_retries` and `retry_delay` are replaced by arbitrary
values, because the retry decorator hard-codes 5 attempts and backoff
parameters 1 and 10; moreover at most 5 attempts are ever performed. -/
theorem retry_independent_of_config (cfg : Config) (m : Nat) (d : Rat)
    (requires_auth : Bool) (events : Nat → TransportEvent) :
    client_request { cfg with max_retries := m, retry_delay := d }
        requires_auth events =
      client_request cfg requires_auth events ∧
    (client_request cfg requires_auth events).run.attempts ≤ 5 :=
  ⟨rfl, tenacityLoop_attempts_le cfg.timeout events 1 4⟩

/-- C10: a tool name reaches a handler in `handle_call_tool` exactly when
it is advertised in the static `TOOLS` catalog returned by
`handle_list_tools`. -/
theorem dispatch_names_match_catalog :
    ∀ name, handle_call_tool_known name = true ↔ name ∈ toolNames :=
  fun name => known_eq_chain name ▸ nameChain_eq_mem toolNames name

end Vaults
